import Mathlib

/-!
Verification of `tools/generate_app_icons.py`.

The script loads a source bitmap, resizes it to each entry of a fixed
name-to-edge-length table, saves each result as `<name>.png`, and writes a
`Contents.json` manifest describing the successfully generated icons.

We embed the script shallowly: PIL images are modelled by their pixel
dimensions, filesystem effects by an explicit run result (files written,
per-entry errors reported, optional manifest), and the fallible calls
(`Image.open`, `resize`/`save`) by an environment recording their outcomes.
-/

namespace AppIcons

/-- Substring occurrence on character lists: Python's `needle in hay`. -/
def subOccurs (ns : List Char) : List Char → Bool
  | [] => ns.isEmpty
  | c :: t => ns.isPrefixOf (c :: t) || subOccurs ns t

/-- Python's `needle in hay` for strings. -/
def containsSub (hay needle : String) : Bool :=
  subOccurs needle.toList hay.toList

/-- The static `icon_sizes` dict, in insertion order (Python dicts preserve
insertion order, and all keys are distinct). -/
def icon_sizes : List (String × Nat) :=
  [ ("AppStore", 1024),
    ("iPhone-20@2x", 40),
    ("iPhone-20@3x", 60),
    ("iPhone-29@2x", 58),
    ("iPhone-29@3x", 87),
    ("iPhone-40@2x", 80),
    ("iPhone-40@3x", 120),
    ("iPhone-60@2x", 120),
    ("iPhone-60@3x", 180),
    ("iPad-20", 20),
    ("iPad-20@2x", 40),
    ("iPad-29", 29),
    ("iPad-29@2x", 58),
    ("iPad-40", 40),
    ("iPad-40@2x", 80),
    ("iPad-76", 76),
    ("iPad-76@2x", 152),
    ("iPad-83.5@2x", 167) ]

/-- A PIL image, modelled by its pixel dimensions. -/
structure Image where
  width : Nat
  height : Nat
deriving DecidableEq, Repr

/-- `img.resize((w, h), LANCZOS)`: returns an image of exactly the requested
dimensions (resampled content is not modelled). -/
def Image.resize (_img : Image) (w h : Nat) : Image :=
  { width := w, height := h }

/-- Outcomes of the script's fallible library calls: `Image.open` (none when
it raises) and, per icon name, whether the `resize`/`save` of that entry
succeeds. -/
structure Env where
  sourceImage : Option Image
  resizeOk : String → Bool

/-- A PNG file written by the script: its filename and saved image. -/
structure FileWrite where
  filename : String
  image : Image
deriving DecidableEq, Repr

/-- One element of the manifest's `images` list. -/
structure ImageEntry where
  filename : String
  idiom : String
  scale : String
  size : String
deriving DecidableEq, Repr

/-- The `contents_json` object: the `images` list and the fixed `info`
header fields. -/
structure ContentsJson where
  images : List ImageEntry
  author : String
  version : Nat
deriving DecidableEq, Repr

/-- Everything the run writes or reports: PNG files in generation order,
names of entries whose resize/save failed (in table order), and the
manifest, when it is written. -/
structure RunResult where
  files : List FileWrite
  errors : List String
  manifest : Option ContentsJson
deriving DecidableEq

/-- The idiom chain of the manifest loop, as the code orders it:
`iPhone`, then `iPad`, then `AppStore`, else `universal`. -/
def idiomOf (name : String) : String :=
  if containsSub name "iPhone" then "iphone"
  else if containsSub name "iPad" then "ipad"
  else if containsSub name "AppStore" then "ios-marketing"
  else "universal"

/-- The scale chain of the manifest loop, as the code orders it: start at
`1x`, overwrite to `2x` if the name contains `@2x`, else to `3x` if it
contains `@3x`. -/
def scaleOf (name : String) : String :=
  if containsSub name "@2x" then "2x"
  else if containsSub name "@3x" then "3x"
  else "1x"

/-- The `generated_files` list: one `(name, size, filename)` triple per
table entry whose resize/save succeeded, in table order. -/
def generated_files (env : Env) : List (String × Nat × String) :=
  icon_sizes.filterMap fun p =>
    if env.resizeOk p.1 then some (p.1, p.2, p.1 ++ ".png") else none

/-- The `image_entry` built for one element of `generated_files`. -/
def imageEntryOf (t : String × Nat × String) : ImageEntry :=
  { filename := t.2.2
    idiom := idiomOf t.1
    scale := scaleOf t.1
    size := toString t.2.1 ++ "x" ++ toString t.2.1 }

/-- The whole `generate_app_icons` procedure. When `Image.open` raises the
run returns at once with nothing written; otherwise each table entry is
resized and saved (failures reported and skipped), and `Contents.json` is
always written with one entry per generated file. -/
def generate_app_icons (env : Env) : RunResult :=
  match env.sourceImage with
  | none => { files := [], errors := [], manifest := none }
  | some src =>
      let gens := generated_files env
      { files := gens.map fun t =>
          { filename := t.2.2, image := src.resize t.2.1 t.2.1 }
        errors := icon_sizes.filterMap fun p =>
          if env.resizeOk p.1 then none else some p.1
        manifest := some
          { images := gens.map imageEntryOf
            author := "xcode"
            version := 1 } }

/-- Rendering of one `images` element, as `json.dump(..., indent=2)` lays
it out at depth two. -/
def renderEntry (e : ImageEntry) : String :=
  "    \x7b\n      \"filename\": \"" ++ e.filename ++
  "\",\n      \"idiom\": \"" ++ e.idiom ++
  "\",\n      \"scale\": \"" ++ e.scale ++
  "\",\n      \"size\": \"" ++ e.size ++ "\"\n    \x7d"

/-- Rendering of the `images` list. -/
def renderImages : List ImageEntry → String
  | [] => "[]"
  | es => "[\n" ++ String.intercalate ",\n" (es.map renderEntry) ++ "\n  ]"

/-- The bytes `json.dump(contents_json, f, indent=2)` writes. -/
def renderContents (c : ContentsJson) : String :=
  "\x7b\n  \"images\": " ++ renderImages c.images ++
  ",\n  \"info\": \x7b\n    \"author\": \"" ++ c.author ++
  "\",\n    \"version\": " ++ toString c.version ++ "\n  \x7d\n\x7d"

/-- The manifest file content a run produces, when one is written. -/
def manifestBytes (env : Env) : Option String :=
  (generate_app_icons env).manifest.map renderContents

/-- Idiom classification as the spec words it: `AppStore` checked first,
then `iPhone`, then `iPad`, else `universal`. -/
def specIdiom (name : String) : String :=
  if containsSub name "AppStore" then "ios-marketing"
  else if containsSub name "iPhone" then "iphone"
  else if containsSub name "iPad" then "ipad"
  else "universal"

/-- Scale classification as the spec words it: `@3x` checked before `@2x`. -/
def specScale (name : String) : String :=
  if containsSub name "@3x" then "3x"
  else if containsSub name "@2x" then "2x"
  else "1x"

/-- The manifest object a loaded run writes. -/
def loadedManifest (img : Image) (ok : String → Bool) : ContentsJson :=
  { images := (generated_files { sourceImage := some img, resizeOk := ok }).map imageEntryOf
    author := "xcode"
    version := 1 }

/-- Environment of a run where the source loads and every resize succeeds. -/
def allOkEnv : Env :=
  { sourceImage := some { width := 1024, height := 1024 }, resizeOk := fun _ => true }

/-- Environment with the same outcomes as `allOkEnv`, written differently. -/
def allOkEnv2 : Env :=
  { sourceImage := some { width := 1024, height := 1024 }, resizeOk := fun n => n == n }

/-- Environment of a run where `Image.open` raises. -/
def noImageEnv : Env :=
  { sourceImage := none, resizeOk := fun _ => true }

/-- Environment where only the `iPhone-60@3x` entry resizes successfully. -/
def onlyPhone60Env : Env :=
  { sourceImage := some { width := 1024, height := 1024 }
    resizeOk := fun n => n == "iPhone-60@3x" }

/-- Environment where the `iPad-20` entry fails and every other succeeds. -/
def failPad20Env : Env :=
  { sourceImage := some { width := 1024, height := 1024 }
    resizeOk := fun n => !(n == "iPad-20") }

/-- Environment where the source loads but every resize fails. -/
def allFailEnv : Env :=
  { sourceImage := some { width := 1, height := 1 }, resizeOk := fun _ => false }

/-- Right cancellation of string append. -/
theorem string_append_cancel_right {a b c : String} (h : a ++ c = b ++ c) : a = b := by
  apply String.ext
  have hd := congrArg String.data h
  simp only [String.data_append] at hd
  exact List.append_cancel_right hd

/-- On every name of the table, the code's idiom chain and the spec's agree. -/
theorem idiom_agrees_on_table : ∀ p ∈ icon_sizes, idiomOf p.1 = specIdiom p.1 := by decide

/-- On every name of the table, the code's scale chain and the spec's agree. -/
theorem scale_agrees_on_table : ∀ p ∈ icon_sizes, scaleOf p.1 = specScale p.1 := by decide

/-- Shape of a loaded run: the files, errors and manifest it writes. -/
theorem run_loaded (img : Image) (ok : String → Bool) :
    generate_app_icons { sourceImage := some img, resizeOk := ok } =
      { files := (generated_files { sourceImage := some img, resizeOk := ok }).map fun t =>
          { filename := t.2.2, image := img.resize t.2.1 t.2.1 }
        errors := icon_sizes.filterMap fun p => if ok p.1 then none else some p.1
        manifest := some (loadedManifest img ok) } := rfl

/-- Elements of `generated_files` are exactly the successful table entries. -/
theorem mem_generated_files {env : Env} {t : String × Nat × String} :
    t ∈ generated_files env ↔
      ∃ p ∈ icon_sizes, env.resizeOk p.1 = true ∧ t = (p.1, p.2, p.1 ++ ".png") := by
  unfold generated_files
  rw [List.mem_filterMap]
  constructor
  · rintro ⟨p, hp, hpt⟩
    by_cases h : env.resizeOk p.1 = true
    · rw [if_pos h] at hpt
      exact ⟨p, hp, h, (Option.some.inj hpt).symm⟩
    · rw [if_neg h] at hpt
      cases hpt
  · rintro ⟨p, hp, hok, rfl⟩
    exact ⟨p, hp, by rw [if_pos hok]⟩

/-- C1, counterexample: the static table has 18 entries, not 17, and a
fully successful run writes 18 files, not 17. -/
theorem C1_not_seventeen :
    icon_sizes.length ≠ 17 ∧ (generate_app_icons allOkEnv).files.length ≠ 17 := by
  decide

/-- C1, amended: the static table has exactly 18 entries, and given a
loaded source image with every per-entry resize succeeding, the run writes
exactly 18 files, each resized to exactly its entry's edge-length square. -/
theorem C1_eighteen_icons (env : Env) (img : Image)
    (hload : env.sourceImage = some img) (hok : ∀ n, env.resizeOk n = true) :
    icon_sizes.length = 18 ∧
    (generate_app_icons env).files.length = 18 ∧
    ∀ f ∈ (generate_app_icons env).files, ∃ p ∈ icon_sizes,
      f.filename = p.1 ++ ".png" ∧ f.image.width = p.2 ∧ f.image.height = p.2 := by
  obtain ⟨src, ok⟩ := env
  dsimp only at hload hok
  subst hload
  have hfun : ok = fun _ => true := funext hok
  subst hfun
  have hfiles : (generate_app_icons { sourceImage := some img, resizeOk := fun _ => true }).files
      = icon_sizes.map fun p =>
          { filename := p.1 ++ ".png", image := { width := p.2, height := p.2 } } := rfl
  rw [hfiles]
  decide

/-- C1, witness: the amended statement at a concrete fully successful run. -/
theorem C1_eighteen_icons_witness :
    icon_sizes.length = 18 ∧
    (generate_app_icons allOkEnv).files.length = 18 ∧
    ∀ f ∈ (generate_app_icons allOkEnv).files, ∃ p ∈ icon_sizes,
      f.filename = p.1 ++ ".png" ∧ f.image.width = p.2 ∧ f.image.height = p.2 :=
  C1_eighteen_icons allOkEnv { width := 1024, height := 1024 } rfl fun _ => rfl

/-- C2, counterexample: on a name containing both markers the AppStore
check does not take precedence; the manifest entry built for a name
containing both "AppStore" and "iPhone" gets idiom "iphone", not the
"ios-marketing" the claimed rule assigns. -/
theorem C2_appstore_not_first :
    containsSub "AppStoreiPhone" "AppStore" = true ∧
    (imageEntryOf ("AppStoreiPhone", 1024, "AppStoreiPhone.png")).idiom = "iphone" ∧
    (imageEntryOf ("AppStoreiPhone", 1024, "AppStoreiPhone.png")).idiom ≠
      specIdiom "AppStoreiPhone" := by
  decide

/-- C2, amended: the code checks "iPhone" first, then "iPad", then
"AppStore"; since no table name contains more than one marker, every
manifest entry's idiom still equals the claimed rule's value on its name. -/
theorem C2_idiom_on_manifest (env : Env) (img : Image)
    (hload : env.sourceImage = some img) :
    ∀ m, (generate_app_icons env).manifest = some m →
      ∀ e ∈ m.images, ∃ p ∈ icon_sizes,
        e.filename = p.1 ++ ".png" ∧ e.idiom = specIdiom p.1 := by
  obtain ⟨src, ok⟩ := env
  dsimp only at hload
  subst hload
  intro m hm
  have him : m = loadedManifest img ok := (Option.some.inj hm).symm
  subst him
  intro e he
  dsimp only [loadedManifest] at he
  rw [List.mem_map] at he
  obtain ⟨t, ht, rfl⟩ := he
  rw [mem_generated_files] at ht
  obtain ⟨p, hp, hpok, rfl⟩ := ht
  exact ⟨p, hp, rfl, idiom_agrees_on_table p hp⟩

/-- C2, witness: the amended statement at a run that generates only the
iPhone-60@3x icon, instantiated at its one manifest entry. -/
theorem C2_idiom_on_manifest_witness :
    ∃ p ∈ icon_sizes,
      (ImageEntry.mk "iPhone-60@3x.png" "iphone" "3x" "180x180").filename = p.1 ++ ".png" ∧
      (ImageEntry.mk "iPhone-60@3x.png" "iphone" "3x" "180x180").idiom = specIdiom p.1 :=
  C2_idiom_on_manifest onlyPhone60Env { width := 1024, height := 1024 } rfl
    { images := [ImageEntry.mk "iPhone-60@3x.png" "iphone" "3x" "180x180"]
      author := "xcode", version := 1 } (by decide)
    (ImageEntry.mk "iPhone-60@3x.png" "iphone" "3x" "180x180") (by decide)

/-- C3, counterexample: on a name containing both suffixes the "@3x" check
does not take precedence; the manifest entry built for a name containing
both "@2x" and "@3x" gets scale "2x", not the "3x" the claimed rule
assigns. -/
theorem C3_3x_not_first :
    containsSub "Icon@2x@3x" "@3x" = true ∧
    (imageEntryOf ("Icon@2x@3x", 40, "Icon@2x@3x.png")).scale = "2x" ∧
    (imageEntryOf ("Icon@2x@3x", 40, "Icon@2x@3x.png")).scale ≠
      specScale "Icon@2x@3x" := by
  decide

/-- C3, amended: the code checks "@2x" first, then "@3x"; since no table
name contains both suffixes, every manifest entry's scale still equals the
claimed rule's value on its name. -/
theorem C3_scale_on_manifest (env : Env) (img : Image)
    (hload : env.sourceImage = some img) :
    ∀ m, (generate_app_icons env).manifest = some m →
      ∀ e ∈ m.images, ∃ p ∈ icon_sizes,
        e.filename = p.1 ++ ".png" ∧ e.scale = specScale p.1 := by
  obtain ⟨src, ok⟩ := env
  dsimp only at hload
  subst hload
  intro m hm
  have him : m = loadedManifest img ok := (Option.some.inj hm).symm
  subst him
  intro e he
  dsimp only [loadedManifest] at he
  rw [List.mem_map] at he
  obtain ⟨t, ht, rfl⟩ := he
  rw [mem_generated_files] at ht
  obtain ⟨p, hp, hpok, rfl⟩ := ht
  exact ⟨p, hp, rfl, scale_agrees_on_table p hp⟩

/-- C3, witness: the amended statement at a run that generates only the
iPhone-60@3x icon, instantiated at its one manifest entry. -/
theorem C3_scale_on_manifest_witness :
    ∃ p ∈ icon_sizes,
      (ImageEntry.mk "iPhone-60@3x.png" "iphone" "3x" "180x180").filename = p.1 ++ ".png" ∧
      (ImageEntry.mk "iPhone-60@3x.png" "iphone" "3x" "180x180").scale = specScale p.1 :=
  C3_scale_on_manifest onlyPhone60Env { width := 1024, height := 1024 } rfl
    { images := [ImageEntry.mk "iPhone-60@3x.png" "iphone" "3x" "180x180"]
      author := "xcode", version := 1 } (by decide)
    (ImageEntry.mk "iPhone-60@3x.png" "iphone" "3x" "180x180") (by decide)

/-- C4: when loading the source image fails, the run aborts before any
resizing: no icon file is written and no manifest is written. -/
theorem C4_abort_on_load_failure (env : Env) (h : env.sourceImage = none) :
    (generate_app_icons env).files = [] ∧ (generate_app_icons env).manifest = none := by
  obtain ⟨src, ok⟩ := env
  dsimp only at h
  subst h
  exact ⟨rfl, rfl⟩

/-- C4, witness: the failing-load run at a concrete environment. -/
theorem C4_abort_on_load_failure_witness :
    (generate_app_icons noImageEnv).files = [] ∧
    (generate_app_icons noImageEnv).manifest = none :=
  C4_abort_on_load_failure noImageEnv rfl

/-- C5: a table entry whose resize or save fails is reported, omitted from
the written files and from the manifest, while every entry that succeeds is
still generated: no abort, no rollback. -/
theorem C5_skip_and_continue (env : Env) (img : Image)
    (hload : env.sourceImage = some img)
    (p : String × Nat) (hp : p ∈ icon_sizes) (hfail : env.resizeOk p.1 = false) :
    p.1 ∈ (generate_app_icons env).errors ∧
    (∀ f ∈ (generate_app_icons env).files, f.filename ≠ p.1 ++ ".png") ∧
    (∀ m, (generate_app_icons env).manifest = some m →
      ∀ e ∈ m.images, e.filename ≠ p.1 ++ ".png") ∧
    (∀ q ∈ icon_sizes, env.resizeOk q.1 = true →
      (q.1 ++ ".png") ∈ (generate_app_icons env).files.map FileWrite.filename) := by
  obtain ⟨src, ok⟩ := env
  dsimp only at hload hfail
  subst hload
  refine ⟨?_, ?_, ?_, ?_⟩
  · show p.1 ∈ icon_sizes.filterMap fun q => if ok q.1 then none else some q.1
    rw [List.mem_filterMap]
    exact ⟨p, hp, by rw [if_neg (by simp [hfail])]⟩
  · intro f hf
    rw [run_loaded, List.mem_map] at hf
    obtain ⟨t, ht, rfl⟩ := hf
    rw [mem_generated_files] at ht
    obtain ⟨q, hq, hqok, rfl⟩ := ht
    show q.1 ++ ".png" ≠ p.1 ++ ".png"
    intro hcontra
    have hq1 : ok q.1 = true := hqok
    rw [string_append_cancel_right hcontra, hfail] at hq1
    cases hq1
  · intro m hm
    have him : m = loadedManifest img ok := (Option.some.inj hm).symm
    subst him
    intro e he
    dsimp only [loadedManifest] at he
    rw [List.mem_map] at he
    obtain ⟨t, ht, rfl⟩ := he
    rw [mem_generated_files] at ht
    obtain ⟨q, hq, hqok, rfl⟩ := ht
    show q.1 ++ ".png" ≠ p.1 ++ ".png"
    intro hcontra
    have hq1 : ok q.1 = true := hqok
    rw [string_append_cancel_right hcontra, hfail] at hq1
    cases hq1
  · intro q hq hqok
    rw [run_loaded]
    dsimp only
    rw [List.map_map, List.mem_map]
    exact ⟨(q.1, q.2, q.1 ++ ".png"),
      mem_generated_files.mpr ⟨q, hq, hqok, rfl⟩, rfl⟩

/-- C5, witness: the property at a run where exactly the iPad-20 entry
fails. -/
theorem C5_skip_and_continue_witness :
    "iPad-20" ∈ (generate_app_icons failPad20Env).errors ∧
    (∀ f ∈ (generate_app_icons failPad20Env).files, f.filename ≠ "iPad-20" ++ ".png") ∧
    (∀ m, (generate_app_icons failPad20Env).manifest = some m →
      ∀ e ∈ m.images, e.filename ≠ "iPad-20" ++ ".png") ∧
    (∀ q ∈ icon_sizes, failPad20Env.resizeOk q.1 = true →
      (q.1 ++ ".png") ∈ (generate_app_icons failPad20Env).files.map FileWrite.filename) :=
  C5_skip_and_continue failPad20Env { width := 1024, height := 1024 } rfl
    ("iPad-20", 20) (by decide) (by decide)

/-- C6: the manifest's image list has exactly one entry per generated
file, in generation order, and each entry's filename equals the written
file's filename. -/
theorem C6_manifest_matches_files (env : Env) (img : Image)
    (hload : env.sourceImage = some img) :
    ∀ m, (generate_app_icons env).manifest = some m →
      m.images.length = (generate_app_icons env).files.length ∧
      m.images.map ImageEntry.filename =
        (generate_app_icons env).files.map FileWrite.filename := by
  obtain ⟨src, ok⟩ := env
  dsimp only at hload
  subst hload
  intro m hm
  have him : m = loadedManifest img ok := (Option.some.inj hm).symm
  subst him
  rw [run_loaded]
  dsimp only [loadedManifest]
  constructor
  · rw [List.length_map, List.length_map]
  · rw [List.map_map, List.map_map]
    rfl

/-- C6, witness: the property at a run that generates only the
iPhone-60@3x icon. -/
theorem C6_manifest_matches_files_witness :
    ([ImageEntry.mk "iPhone-60@3x.png" "iphone" "3x" "180x180"]).length =
      (generate_app_icons onlyPhone60Env).files.length ∧
    ([ImageEntry.mk "iPhone-60@3x.png" "iphone" "3x" "180x180"]).map ImageEntry.filename =
      (generate_app_icons onlyPhone60Env).files.map FileWrite.filename :=
  C6_manifest_matches_files onlyPhone60Env { width := 1024, height := 1024 } rfl
    { images := [ImageEntry.mk "iPhone-60@3x.png" "iphone" "3x" "180x180"]
      author := "xcode", version := 1 } (by decide)

/-- C7: the table contains the entry ("iPhone-60@3x", 180); when its
resize succeeds the run writes the 180 by 180 file "iPhone-60@3x.png" and
the manifest carries the entry with idiom "iphone", scale "3x" and size
"180x180". -/
theorem C7_iphone60 (env : Env) (img : Image)
    (hload : env.sourceImage = some img)
    (hok : env.resizeOk "iPhone-60@3x" = true) :
    ("iPhone-60@3x", 180) ∈ icon_sizes ∧
    ({ filename := "iPhone-60@3x.png", image := { width := 180, height := 180 } } : FileWrite)
      ∈ (generate_app_icons env).files ∧
    ∀ m, (generate_app_icons env).manifest = some m →
      ({ filename := "iPhone-60@3x.png", idiom := "iphone", scale := "3x",
         size := "180x180" } : ImageEntry) ∈ m.images := by
  obtain ⟨src, ok⟩ := env
  dsimp only at hload hok
  subst hload
  refine ⟨by decide, ?_, ?_⟩
  · rw [run_loaded]
    dsimp only
    rw [List.mem_map]
    exact ⟨("iPhone-60@3x", 180, "iPhone-60@3x.png"),
      mem_generated_files.mpr ⟨("iPhone-60@3x", 180), by decide, hok, rfl⟩, rfl⟩
  · intro m hm
    have him : m = loadedManifest img ok := (Option.some.inj hm).symm
    subst him
    dsimp only [loadedManifest]
    rw [List.mem_map]
    exact ⟨("iPhone-60@3x", 180, "iPhone-60@3x.png"),
      mem_generated_files.mpr ⟨("iPhone-60@3x", 180), by decide, hok, rfl⟩, by decide⟩

/-- C7, witness: the property at a concrete fully successful run. -/
theorem C7_iphone60_witness :
    ("iPhone-60@3x", 180) ∈ icon_sizes ∧
    ({ filename := "iPhone-60@3x.png", image := { width := 180, height := 180 } } : FileWrite)
      ∈ (generate_app_icons allOkEnv).files ∧
    ∀ m, (generate_app_icons allOkEnv).manifest = some m →
      ({ filename := "iPhone-60@3x.png", idiom := "iphone", scale := "3x",
         size := "180x180" } : ImageEntry) ∈ m.images :=
  C7_iphone60 allOkEnv { width := 1024, height := 1024 } rfl rfl

/-- C8: two runs that load the same source image and whose per-entry
resize outcomes agree write byte-for-byte identical manifest content. -/
theorem C8_deterministic (e1 e2 : Env) (img : Image)
    (h1 : e1.sourceImage = some img) (h2 : e2.sourceImage = some img)
    (hr : ∀ n, e1.resizeOk n = e2.resizeOk n) :
    manifestBytes e1 = manifestBytes e2 := by
  obtain ⟨s1, ok1⟩ := e1
  obtain ⟨s2, ok2⟩ := e2
  dsimp only at h1 h2 hr
  subst h1
  subst h2
  have hok : ok1 = ok2 := funext hr
  subst hok
  rfl

/-- C8, witness: two concrete runs with extensionally equal outcomes. -/
theorem C8_deterministic_witness :
    manifestBytes allOkEnv = manifestBytes allOkEnv2 :=
  C8_deterministic allOkEnv allOkEnv2 { width := 1024, height := 1024 } rfl rfl
    fun n => (beq_self_eq_true n).symm

/-- C9: every table name contains one of the markers "iPhone", "iPad" or
"AppStore", so the universal idiom branch is unreachable on the table's
entries. -/
theorem C9_no_universal : ∀ p ∈ icon_sizes,
    (containsSub p.1 "iPhone" || containsSub p.1 "iPad" ||
      containsSub p.1 "AppStore") = true ∧ idiomOf p.1 ≠ "universal" := by
  decide

/-- C9, witness: the property at the AppStore table entry. -/
theorem C9_no_universal_witness :
    (containsSub "AppStore" "iPhone" || containsSub "AppStore" "iPad" ||
      containsSub "AppStore" "AppStore") = true ∧ idiomOf "AppStore" ≠ "universal" :=
  C9_no_universal ("AppStore", 1024) (by decide)

/-- C10: whenever the source image loads, the manifest is written with the
fixed info header author "xcode" and version 1; if every per-entry resize
fails it still gets written, with an empty images list. -/
theorem C10_manifest_always_written (env : Env) (img : Image)
    (hload : env.sourceImage = some img) :
    (∃ m, (generate_app_icons env).manifest = some m ∧
      m.author = "xcode" ∧ m.version = 1) ∧
    ((∀ n, env.resizeOk n = false) →
      (generate_app_icons env).manifest =
        some { images := [], author := "xcode", version := 1 }) := by
  obtain ⟨src, ok⟩ := env
  dsimp only at hload
  subst hload
  constructor
  · exact ⟨loadedManifest img ok, rfl, rfl, rfl⟩
  · intro hfail
    have hfun : ok = fun _ => false := funext hfail
    subst hfun
    rfl

/-- C10, witness: the property at a run where every resize fails. -/
theorem C10_manifest_always_written_witness :
    (∃ m, (generate_app_icons allFailEnv).manifest = some m ∧
      m.author = "xcode" ∧ m.version = 1) ∧
    (generate_app_icons allFailEnv).manifest =
      some { images := [], author := "xcode", version := 1 } :=
  ⟨(C10_manifest_always_written allFailEnv { width := 1, height := 1 } rfl).1,
   (C10_manifest_always_written allFailEnv { width := 1, height := 1 } rfl).2
     fun _ => rfl⟩

end AppIcons
